import Mathlib

/-!
# Verification of the authentication core (`src/backend/src/auth/auth.service.ts`)

A shallow embedding of the NestJS `AuthService` of the inventory-management
repository.  The Prisma store is modelled as explicit lists of records; every
public operation is a pure function from an environment (configuration,
password hasher, clock, fresh identifiers, collaborator failure flags) and a
store to an `Except` outcome paired with the successor store.  Machine
concerns that the claims do not touch (HTTP transport, JWT wire encoding,
bcrypt internals) are abstracted: a signed token is a record carrying its
claims, the secret it was signed with and its expiry instant, and the hasher
is a pair of functions supplied by the environment.
-/

namespace AuthCore

/-- A permission row: an atomic capability identified by a string key. -/
structure Permission where
  key : String
  deriving DecidableEq, Repr

/-- A role-permission join row (`rolePermissions` include in the Prisma queries). -/
structure RolePermission where
  permission : Permission
  deriving DecidableEq, Repr

/-- A role row with its permission join, in join order, as the deep
`include` of the service loads it. -/
structure Role where
  id : String
  name : String
  rolePermissions : List RolePermission
  deriving DecidableEq, Repr

/-- User status enum (`ACTIVE | INACTIVE | SUSPENDED`). -/
inductive UserStatus where
  | ACTIVE
  | INACTIVE
  | SUSPENDED
  deriving DecidableEq, Repr

/-- A stored user row.  Timestamps are milliseconds since the epoch
(`Date.now()`); the reset token and its expiry are the nullable pair. -/
structure UserRec where
  id : String
  email : String
  name : String
  passwordHash : String
  status : UserStatus
  roleId : String
  lastLoginAt : Option Nat
  passwordResetToken : Option String
  passwordResetExpires : Option Nat
  deriving DecidableEq, Repr

/-- A security-log row as `logSecurityEvent` writes it
(`success: !errorMessage`, metadata echoing the error message). -/
structure SecurityLogEntry where
  userId : Option String
  event : String
  email : Option String
  ipAddress : Option String
  userAgent : Option String
  success : Bool
  errorMessage : Option String
  metadata : Option String
  deriving DecidableEq, Repr

/-- An audit-trail row as `register` emits it (post-state of the creation,
no pre-state). -/
structure AuditEntry where
  entity : String
  entityId : String
  action : String
  actorUserId : String
  actorRole : String
  afterEmail : String
  afterName : String
  afterRoleId : String
  deriving DecidableEq, Repr

/-- The credential store: user rows, role rows (with their permission joins),
the security log and the audit trail. -/
structure Store where
  users : List UserRec
  roles : List Role
  securityLogs : List SecurityLogEntry
  auditLogs : List AuditEntry
  deriving DecidableEq, Repr

/-- The error taxonomy of the service.  `Unauthorized`, `BadRequest` and
`Conflict` are the Nest HTTP exceptions; `Fatal` is a plain `Error(...)`;
`PrismaUnique` is a store-level unique-constraint violation (P2002);
`PrismaFK` a foreign-key violation; `AuditFailure` an error thrown by the
audit-trail collaborator. -/
inductive AuthError where
  | Unauthorized (msg : String)
  | BadRequest (msg : String)
  | Conflict (msg : String)
  | Fatal (msg : String)
  | PrismaUnique (msg : String)
  | PrismaFK (msg : String)
  | AuditFailure (msg : String)
  deriving DecidableEq, Repr

/-- `error.message` of a thrown error. -/
def AuthError.message : AuthError → String
  | .Unauthorized m => m
  | .BadRequest m => m
  | .Conflict m => m
  | .Fatal m => m
  | .PrismaUnique m => m
  | .PrismaFK m => m
  | .AuditFailure m => m

/-- The immutable configuration read once at construction. -/
structure Config where
  jwtSecret : String
  jwtRefreshSecret : String
  jwtExpiresIn : String
  jwtRefreshExpiresIn : String
  bcryptRounds : Nat
  deriving DecidableEq, Repr

/-- The raw environment variables the constructor reads
(`configService.get`, `none` = unset). -/
structure EnvVars where
  JWT_SECRET : Option String
  JWT_REFRESH_SECRET : Option String
  JWT_EXPIRES_IN : Option String
  JWT_REFRESH_EXPIRES_IN : Option String
  BCRYPT_ROUNDS : Option Nat
  deriving DecidableEq, Repr

/-- JavaScript falsiness of an optional string: `undefined` or `""`. -/
def falsyStr : Option String → Bool
  | none => true
  | some s => s == ""

/-- The `AuthService` constructor: read secrets and TTLs (with defaults
"15m" / "7d"), and throw `Error("JWT secrets are not configured properly")`
when either secret is falsy.  This is the fail-fast startup check. -/
def mkConfig (ev : EnvVars) : Except AuthError Config :=
  if falsyStr ev.JWT_SECRET || falsyStr ev.JWT_REFRESH_SECRET then
    .error (.Fatal "JWT secrets are not configured properly")
  else
    .ok { jwtSecret := ev.JWT_SECRET.getD ""
          jwtRefreshSecret := ev.JWT_REFRESH_SECRET.getD ""
          jwtExpiresIn := ev.JWT_EXPIRES_IN.getD "15m"
          jwtRefreshExpiresIn := ev.JWT_REFRESH_EXPIRES_IN.getD "7d"
          bcryptRounds := ev.BCRYPT_ROUNDS.getD 12 }

/-- The per-call environment: the configuration, the bcrypt primitives
(hash with a cost factor; compare a plaintext against a stored hash), the
clock, fresh identifiers for this call, and whether the two logging
collaborators fail on this call. -/
structure Env where
  cfg : Config
  bhash : String → Nat → String
  bcompare : String → String → Bool
  now : Nat
  uuid : String
  newId : String
  secLogThrows : Bool
  auditThrows : Bool

/-- `prisma.user.findUnique({ where: { email } })`: case-sensitive exact
match on the unique email column. -/
def findUserByEmail (st : Store) (email : String) : Option UserRec :=
  st.users.find? (fun u => u.email == email)

/-- `prisma.user.findUnique({ where: { id } })`. -/
def findUserById (st : Store) (id : String) : Option UserRec :=
  st.users.find? (fun u => u.id == id)

/-- Role lookup by primary key (the `include: { role: ... }` join). -/
def findRoleById (st : Store) (rid : String) : Option Role :=
  st.roles.find? (fun r => r.id == rid)

/-- A user row loaded together with its role and the role's permission join
(the deep-include read model). -/
structure LoadedUser where
  user : UserRec
  role : Role
  deriving DecidableEq, Repr

/-- `findUnique({ where: { email }, include: { role: ... } })`: the user row
with its role joined.  The foreign key guarantees the role exists for every
stored user; a dangling `roleId` yields `none`. -/
def loadUserByEmail (st : Store) (email : String) : Option LoadedUser :=
  (findUserByEmail st email).bind fun u =>
    (findRoleById st u.roleId).map fun r => ⟨u, r⟩

/-- `findUnique({ where: { id }, include: { role: ... } })`. -/
def loadUserById (st : Store) (id : String) : Option LoadedUser :=
  (findUserById st id).bind fun u =>
    (findRoleById st u.roleId).map fun r => ⟨u, r⟩

/-- `prisma.user.update({ where: { id } , data })`: rewrite the single row
with the matching id, leaving every other row unchanged. -/
def updateUser (st : Store) (id : String) (f : UserRec → UserRec) : Store :=
  { st with users := st.users.map (fun u => if u.id == id then f u else u) }

/-- `logSecurityEvent`: best-effort append to the security log.  The
`prisma.securityLog.create` call is wrapped in try/catch; when the write
throws the error is given to `this.logger.error` and swallowed, so the store
is unchanged and nothing propagates. -/
def logSecurityEvent (env : Env) (st : Store) (event : String)
    (userId : Option String) (email : Option String)
    (ipAddress : Option String) (userAgent : Option String)
    (errorMessage : Option String) : Store :=
  if env.secLogThrows then st
  else
    { st with securityLogs := st.securityLogs ++
        [{ userId := userId, event := event, email := email
           ipAddress := ipAddress, userAgent := userAgent
           success := errorMessage.isNone, errorMessage := errorMessage
           metadata := errorMessage }] }

/-- The access-token claims (`JwtPayload`). -/
structure JwtPayload where
  sub : String
  email : String
  role : String
  permissions : List String
  deriving DecidableEq, Repr

/-- The refresh-token claims (`{ sub, type: 'refresh' }`). -/
structure RefreshPayload where
  sub : String
  type : String
  deriving DecidableEq, Repr

/-- A signed access token: its claims, the secret it was signed with, and
the `expiresIn` option it was signed with. -/
structure SignedAccessToken where
  payload : JwtPayload
  secret : String
  expiresIn : String
  deriving DecidableEq, Repr

/-- A signed refresh token: its claims, the secret it was signed with, and
its absolute expiry instant (issued-at plus the configured TTL). -/
structure SignedRefreshToken where
  payload : RefreshPayload
  secret : String
  exp : Nat
  deriving DecidableEq, Repr

/-- A token pair as returned to the client. -/
structure TokenPair where
  accessToken : SignedAccessToken
  refreshToken : SignedRefreshToken
  expiresIn : String
  deriving DecidableEq, Repr

/-- TTL strings of the `ms` convention used by the JWT library, converted to
milliseconds: a digit prefix and a unit suffix (`s`, `m`, `h`, `d`). -/
def ttlToMs (s : String) : Nat :=
  let digits := s.takeWhile Char.isDigit
  let n := digits.toNat?.getD 0
  match (s.drop digits.length) with
  | "s" => n * 1000
  | "m" => n * 60 * 1000
  | "h" => n * 60 * 60 * 1000
  | "d" => n * 24 * 60 * 60 * 1000
  | _ => n

/-- `generateTokenPair`: access claims are subject id, email, role name and
the permission keys mapped over the role's join rows in join order; the
access token is signed with the access secret and TTL, the refresh token
with the refresh secret and TTL and claims `{ sub, type: 'refresh' }`. -/
def generateTokenPair (env : Env) (lu : LoadedUser) : TokenPair :=
  { accessToken :=
      { payload :=
          { sub := lu.user.id, email := lu.user.email, role := lu.role.name
            permissions := lu.role.rolePermissions.map (fun rp => rp.permission.key) }
        secret := env.cfg.jwtSecret
        expiresIn := env.cfg.jwtExpiresIn }
    refreshToken :=
      { payload := { sub := lu.user.id, type := "refresh" }
        secret := env.cfg.jwtRefreshSecret
        exp := env.now + ttlToMs env.cfg.jwtRefreshExpiresIn }
    expiresIn := env.cfg.jwtExpiresIn }

/-- The shaped user response of `formatUserResponse`: the loaded user with
the password hash and both reset-token fields destructured away, plus the
flat permission-key list. -/
structure UserResponse where
  id : String
  email : String
  name : String
  status : UserStatus
  roleId : String
  lastLoginAt : Option Nat
  role : Role
  permissions : List String
  deriving DecidableEq, Repr

/-- `formatUserResponse`: strip `passwordHash`, `passwordResetToken` and
`passwordResetExpires`; attach `permissions` as the flat key list. -/
def formatUserResponse (lu : LoadedUser) : UserResponse :=
  { id := lu.user.id, email := lu.user.email, name := lu.user.name
    status := lu.user.status, roleId := lu.user.roleId
    lastLoginAt := lu.user.lastLoginAt, role := lu.role
    permissions := lu.role.rolePermissions.map (fun rp => rp.permission.key) }

/-- An `AuthResponse`: shaped user, token pair and message. -/
structure AuthResponse where
  user : UserResponse
  tokens : TokenPair
  message : String
  deriving DecidableEq, Repr

/-- `getDefaultRoleId`: `findFirst` the role named "Subordinate"; throw a
plain `Error("Default role not found")` when absent.  Called from inside
`register`, not from the constructor. -/
def getDefaultRoleId (st : Store) : Except AuthError String :=
  match st.roles.find? (fun r => r.name == "Subordinate") with
  | some r => .ok r.id
  | none => .error (.Fatal "Default role not found")

/-- The `roleId || await this.getDefaultRoleId()` expression of `register`:
JavaScript falsiness, so an absent or empty `roleId` falls back to the
default role. -/
def resolveRoleId (st : Store) (roleId : Option String) : Except AuthError String :=
  match roleId with
  | some r => if r == "" then getDefaultRoleId st else .ok r
  | none => getDefaultRoleId st

/-- `prisma.user.create` with the role include.  The unique constraint on
`email` is checked against the rows visible at create time: the pre-check
snapshot plus `raced`, the rows committed by concurrent requests between
this call's `findUnique` pre-check and its `create`.  A violation surfaces
as the raw Prisma unique-constraint error; a dangling role reference as a
foreign-key error. -/
def createUser (st : Store) (raced : List UserRec) (u : UserRec) :
    Except AuthError (LoadedUser × Store) :=
  if (st.users ++ raced).any (fun v => v.email == u.email) then
    .error (.PrismaUnique "Unique constraint failed on the fields: (email)")
  else
    match findRoleById st u.roleId with
    | none => .error (.PrismaFK "Foreign key constraint violated")
    | some r => .ok (⟨u, r⟩, { st with users := st.users ++ [u] })

/-- Modelled from the spec: the audit-trail collaborator
(`AuditService.log`, whose source is not part of the fragment) appends an
entry "capturing the post-state (email, name, roleId)"; being an awaited
store write it can fail, which the model exposes through `env.auditThrows`. -/
def auditLog (env : Env) (st : Store) (e : AuditEntry) : Except AuthError Store :=
  if env.auditThrows then .error (.AuditFailure "Audit log write failed")
  else .ok { st with auditLogs := st.auditLogs ++ [e] }

/-- The body of `register`'s try block: duplicate pre-check, hash, default
role resolution, create, `REGISTER_SUCCESS` event, audit entry, token pair.
A thrown error carries the store as mutated so far. -/
def registerBody (env : Env) (st : Store) (raced : List UserRec)
    (email password name : String) (roleId : Option String)
    (ip ua : Option String) : Except (AuthError × Store) (AuthResponse × Store) :=
  match findUserByEmail st email with
  | some _ => .error (.Conflict "User with this email already exists", st)
  | none =>
    let passwordHash := env.bhash password env.cfg.bcryptRounds
    match resolveRoleId st roleId with
    | .error e => .error (e, st)
    | .ok rid =>
      let u : UserRec :=
        { id := env.newId, email := email, name := name
          passwordHash := passwordHash, status := .ACTIVE, roleId := rid
          lastLoginAt := none, passwordResetToken := none
          passwordResetExpires := none }
      match createUser st raced u with
      | .error e => .error (e, st)
      | .ok (lu, st₁) =>
        let st₂ := logSecurityEvent env st₁ "REGISTER_SUCCESS"
          (some lu.user.id) (some email) ip ua none
        match auditLog env st₂
            { entity := "User", entityId := lu.user.id, action := "CREATE"
              actorUserId := lu.user.id, actorRole := lu.role.name
              afterEmail := email, afterName := name
              afterRoleId := lu.user.roleId } with
        | .error e => .error (e, st₂)
        | .ok st₃ =>
          .ok ({ user := formatUserResponse lu
                 tokens := generateTokenPair env lu
                 message := "Registration successful" }, st₃)

/-- `register`: run the try body; on any thrown error, emit
`REGISTER_FAILED` with the error message and rethrow the original error. -/
def register (env : Env) (st : Store) (raced : List UserRec)
    (email password name : String) (roleId : Option String)
    (ip ua : Option String) : Except AuthError AuthResponse × Store :=
  match registerBody env st raced email password name roleId ip ua with
  | .ok (resp, st') => (.ok resp, st')
  | .error (e, st') =>
      (.error e,
       logSecurityEvent env st' "REGISTER_FAILED" none (some email) ip ua (some e.message))

/-- `login`: look up the user with role and permissions; absent user and
wrong password both yield `Unauthorized("Invalid credentials")` with
distinct logged reasons; a non-ACTIVE status yields
`Unauthorized("Account is inactive")`; on success the last-login timestamp
is updated, `LOGIN_SUCCESS` is logged and a token pair issued. -/
def login (env : Env) (st : Store) (email password : String)
    (ip ua : Option String) : Except AuthError AuthResponse × Store :=
  match loadUserByEmail st email with
  | none =>
      (.error (.Unauthorized "Invalid credentials"),
       logSecurityEvent env st "LOGIN_FAILED" none (some email) ip ua (some "User not found"))
  | some lu =>
      if lu.user.status ≠ .ACTIVE then
        (.error (.Unauthorized "Account is inactive"),
         logSecurityEvent env st "LOGIN_FAILED" (some lu.user.id) (some email) ip ua
           (some "Account inactive"))
      else if !(env.bcompare password lu.user.passwordHash) then
        (.error (.Unauthorized "Invalid credentials"),
         logSecurityEvent env st "LOGIN_FAILED" (some lu.user.id) (some email) ip ua
           (some "Invalid password"))
      else
        let st₁ := updateUser st lu.user.id (fun u => { u with lastLoginAt := some env.now })
        let st₂ := logSecurityEvent env st₁ "LOGIN_SUCCESS" (some lu.user.id) (some email) ip ua none
        (.ok { user := formatUserResponse lu
               tokens := generateTokenPair env lu
               message := "Login successful" }, st₂)

/-- `jwtService.verify(refreshToken, { secret: jwtRefreshSecret })`:
signature check against the refresh secret plus expiry check. -/
def verifyRefresh (env : Env) (tok : SignedRefreshToken) : Option RefreshPayload :=
  if tok.secret == env.cfg.jwtRefreshSecret && env.now < tok.exp then
    some tok.payload
  else none

/-- `refreshToken`: verify the presented token, re-load the user (with role
and permissions) fresh from the store by the subject id, and issue a new
pair; any failure — bad signature, expired token, missing user, non-ACTIVE
status — collapses to `Unauthorized("Invalid refresh token")` through the
surrounding catch. -/
def refreshToken (env : Env) (st : Store) (tok : SignedRefreshToken) :
    Except AuthError TokenPair × Store :=
  match verifyRefresh env tok with
  | none => (.error (.Unauthorized "Invalid refresh token"), st)
  | some payload =>
    match loadUserById st payload.sub with
    | none => (.error (.Unauthorized "Invalid refresh token"), st)
    | some lu =>
      if lu.user.status ≠ .ACTIVE then
        (.error (.Unauthorized "Invalid refresh token"), st)
      else
        (.ok (generateTokenPair env lu), st)

/-- `logout`: best-effort `LOGOUT` event when the user exists; always a
success-shaped message. -/
def logout (env : Env) (st : Store) (userId : String) (ip ua : Option String) :
    Except AuthError String × Store :=
  match findUserById st userId with
  | some u =>
      (.ok "Logout successful",
       logSecurityEvent env st "LOGOUT" (some userId) (some u.email) ip ua none)
  | none => (.ok "Logout successful", st)

/-- `changePassword`: verify the current password, persist the new hash,
emit `PASSWORD_CHANGE`. -/
def changePassword (env : Env) (st : Store)
    (userId currentPassword newPassword : String) :
    Except AuthError String × Store :=
  match findUserById st userId with
  | none => (.error (.Unauthorized "User not found"), st)
  | some u =>
    if !(env.bcompare currentPassword u.passwordHash) then
      (.error (.BadRequest "Current password is incorrect"), st)
    else
      let newHash := env.bhash newPassword env.cfg.bcryptRounds
      let st₁ := updateUser st userId (fun v => { v with passwordHash := newHash })
      (.ok "Password changed successfully",
       logSecurityEvent env st₁ "PASSWORD_CHANGE" (some userId) (some u.email) none none none)

/-- `forgotPassword`: a uniform message whether or not the email exists;
when it does, persist a fresh reset token (a v4 uuid) and an expiry of now
plus fifteen minutes, and emit `PASSWORD_RESET_REQUEST`. -/
def forgotPassword (env : Env) (st : Store) (email : String) :
    Except AuthError String × Store :=
  match findUserByEmail st email with
  | none => (.ok "If the email exists, a reset link has been sent", st)
  | some u =>
    let st₁ := updateUser st u.id (fun v =>
      { v with passwordResetToken := some env.uuid
               passwordResetExpires := some (env.now + 15 * 60 * 1000) })
    (.ok "If the email exists, a reset link has been sent",
     logSecurityEvent env st₁ "PASSWORD_RESET_REQUEST" (some u.id) (some email) none none none)

/-- The `findFirst` predicate of `resetPassword`: the stored reset token
equals the presented token and the stored expiry is strictly in the
future (`passwordResetExpires: { gt: new Date() }`). -/
def resetMatches (env : Env) (token : String) (u : UserRec) : Bool :=
  u.passwordResetToken == some token &&
    (match u.passwordResetExpires with
     | some e => env.now < e
     | none => false)

/-- `resetPassword`: find a user holding exactly this unexpired token;
otherwise `BadRequest("Invalid or expired reset token")`.  On match, one
update persists the new hash and nulls both reset fields, then
`PASSWORD_RESET_SUCCESS` is emitted. -/
def resetPassword (env : Env) (st : Store) (token newPassword : String) :
    Except AuthError String × Store :=
  match st.users.find? (resetMatches env token) with
  | none => (.error (.BadRequest "Invalid or expired reset token"), st)
  | some u =>
    let newHash := env.bhash newPassword env.cfg.bcryptRounds
    let st₁ := updateUser st u.id (fun v =>
      { v with passwordHash := newHash
               passwordResetToken := none
               passwordResetExpires := none })
    (.ok "Password reset successful",
     logSecurityEvent env st₁ "PASSWORD_RESET_SUCCESS" (some u.id) (some u.email) none none none)

/-- The value `validateUser` returns on success:
`const { passwordHash, ...result } = user` removes only the password hash,
so the reset-token pair stays in the object. -/
structure ValidatedUser where
  id : String
  email : String
  name : String
  status : UserStatus
  roleId : String
  lastLoginAt : Option Nat
  passwordResetToken : Option String
  passwordResetExpires : Option Nat
  role : Role
  deriving DecidableEq, Repr

/-- `validateUser`: look up by email, require ACTIVE status and a password
match, and return the loaded user minus the password hash; `null` on any
failure, with no logging and no exceptions. -/
def validateUser (env : Env) (st : Store) (email password : String) :
    Option ValidatedUser :=
  match loadUserByEmail st email with
  | none => none
  | some lu =>
    if lu.user.status = .ACTIVE then
      if env.bcompare password lu.user.passwordHash then
        some { id := lu.user.id, email := lu.user.email, name := lu.user.name
               status := lu.user.status, roleId := lu.user.roleId
               lastLoginAt := lu.user.lastLoginAt
               passwordResetToken := lu.user.passwordResetToken
               passwordResetExpires := lu.user.passwordResetExpires
               role := lu.role }
      else none
    else none

/-- Boolean success test for an `Except` outcome. -/
def isOkE {α : Type} : Except AuthError α → Bool
  | .ok _ => true
  | .error _ => false

/-! ### Concrete fixtures used by witnesses and counterexamples -/

/-- A concrete hasher standing in for bcrypt in evaluations. -/
def testHash (p : String) (_rounds : Nat) : String := "h$" ++ p

/-- The matching concrete verifier. -/
def testCompare (p h : String) : Bool := h == "h$" ++ p

def testEnvVars : EnvVars :=
  { JWT_SECRET := some "acc-secret", JWT_REFRESH_SECRET := some "ref-secret"
    JWT_EXPIRES_IN := none, JWT_REFRESH_EXPIRES_IN := none, BCRYPT_ROUNDS := none }

def testConfig : Config :=
  { jwtSecret := "acc-secret", jwtRefreshSecret := "ref-secret"
    jwtExpiresIn := "15m", jwtRefreshExpiresIn := "7d", bcryptRounds := 12 }

def testEnv : Env :=
  { cfg := testConfig, bhash := testHash, bcompare := testCompare
    now := 1000000, uuid := "uuid-1", newId := "id-9"
    secLogThrows := false, auditThrows := false }

/-- The test environment with a failing audit-trail collaborator. -/
def testEnvAudit : Env := { testEnv with auditThrows := true }

def roleSub : Role := ⟨"r1", "Subordinate", [⟨⟨"products:read"⟩⟩]⟩

def roleAdmin : Role :=
  ⟨"r2", "Admin", [⟨⟨"products:read"⟩⟩, ⟨⟨"products:write"⟩⟩, ⟨⟨"products:read"⟩⟩]⟩

def alice : UserRec :=
  ⟨"u1", "alice@x.com", "Alice", "h$Secret1", .ACTIVE, "r1", none, none, none⟩

def bob : UserRec :=
  ⟨"u2", "bob@x.com", "Bob", "h$BobPwd", .INACTIVE, "r1", none, none, none⟩

def carol : UserRec :=
  ⟨"u3", "carol@x.com", "Carol", "h$Secret1", .ACTIVE, "r1", none,
   some "tok-1", some 2000000⟩

def testStore : Store := ⟨[alice, bob, carol], [roleSub, roleAdmin], [], []⟩

/-- A raced row another request committed between pre-check and create. -/
def daveRaced : UserRec :=
  ⟨"u9", "dave@x.com", "Dave2", "h$Other", .ACTIVE, "r1", none, none, none⟩

/-- A store whose roles do not include the default "Subordinate" role. -/
def storeNoDefault : Store := ⟨[], [roleAdmin], [], []⟩

/-! ### Helper lemmas -/

lemma logSecurityEvent_users (env : Env) (st : Store) (event : String)
    (userId email ip ua err : Option String) :
    (logSecurityEvent env st event userId email ip ua err).users = st.users := by
  unfold logSecurityEvent
  by_cases h : env.secLogThrows <;> simp [h]

lemma logSecurityEvent_of_false (env : Env) (st : Store) (event : String)
    (userId email ip ua err : Option String) (h : env.secLogThrows = false) :
    (logSecurityEvent env st event userId email ip ua err).securityLogs =
      st.securityLogs ++
        [{ userId := userId, event := event, email := email
           ipAddress := ip, userAgent := ua
           success := err.isNone, errorMessage := err, metadata := err }] := by
  unfold logSecurityEvent
  simp [h]

lemma find?_eq_of_unique {α : Type} (l : List α) (p : α → Bool) (u : α)
    (hu : u ∈ l) (hpu : p u = true)
    (huniq : ∀ v ∈ l, p v = true → v = u) :
    l.find? p = some u := by
  induction l with
  | nil => cases hu
  | cons a t ih =>
    by_cases ha : p a = true
    · have hau : a = u := huniq a (List.mem_cons_self a t) ha
      subst hau
      simp [List.find?, ha]
    · have ha' : p a = false := by revert ha; cases p a <;> simp
      have hau : a ≠ u := fun h => ha (h ▸ hpu)
      have hut : u ∈ t := by
        cases hu with
        | head => exact absurd rfl hau
        | tail _ h => exact h
      have ht := ih hut (fun v hv hpv => huniq v (List.mem_cons_of_mem a hv) hpv)
      simp [List.find?, ha', ht]

instance instDecEqExcept {ε α : Type} [DecidableEq ε] [DecidableEq α] :
    DecidableEq (Except ε α) := fun x y =>
  match x, y with
  | .ok a, .ok b => decidable_of_iff (a = b) (by simp)
  | .error a, .error b => decidable_of_iff (a = b) (by simp)
  | .ok _, .error _ => isFalse (fun h => Except.noConfusion h)
  | .error _, .ok _ => isFalse (fun h => Except.noConfusion h)

end AuthCore

namespace AuthCore

open AuthCore

/-! ### Case-analysis lemmas for `login` -/

lemma login_not_found (env : Env) (st : Store) (email password : String)
    (ip ua : Option String) (h : loadUserByEmail st email = none) :
    login env st email password ip ua =
      (.error (.Unauthorized "Invalid credentials"),
       logSecurityEvent env st "LOGIN_FAILED" none (some email) ip ua
         (some "User not found")) := by
  simp only [login, h]

lemma login_inactive (env : Env) (st : Store) (email password : String)
    (ip ua : Option String) (lu : LoadedUser)
    (h : loadUserByEmail st email = some lu) (hst : lu.user.status ≠ .ACTIVE) :
    login env st email password ip ua =
      (.error (.Unauthorized "Account is inactive"),
       logSecurityEvent env st "LOGIN_FAILED" (some lu.user.id) (some email) ip ua
         (some "Account inactive")) := by
  simp only [login, h]
  rw [if_pos hst]

lemma login_wrong_password (env : Env) (st : Store) (email password : String)
    (ip ua : Option String) (lu : LoadedUser)
    (h : loadUserByEmail st email = some lu) (hst : lu.user.status = .ACTIVE)
    (hcmp : env.bcompare password lu.user.passwordHash = false) :
    login env st email password ip ua =
      (.error (.Unauthorized "Invalid credentials"),
       logSecurityEvent env st "LOGIN_FAILED" (some lu.user.id) (some email) ip ua
         (some "Invalid password")) := by
  simp only [login, h, hst, hcmp]
  simp

lemma login_success (env : Env) (st : Store) (email password : String)
    (ip ua : Option String) (lu : LoadedUser)
    (h : loadUserByEmail st email = some lu) (hst : lu.user.status = .ACTIVE)
    (hcmp : env.bcompare password lu.user.passwordHash = true) :
    login env st email password ip ua =
      (.ok { user := formatUserResponse lu
             tokens := generateTokenPair env lu
             message := "Login successful" },
       logSecurityEvent env
         (updateUser st lu.user.id (fun u => { u with lastLoginAt := some env.now }))
         "LOGIN_SUCCESS" (some lu.user.id) (some email) ip ua none) := by
  simp only [login, h, hst, hcmp]
  simp

/-! ### Claims -/

/-- C1 counterexample: `bob@x.com` is a stored user and `WrongPw` is a wrong
password for it, yet login fails with `Unauthorized("Account is inactive")`,
not the claimed uniform `Unauthorized("Invalid credentials")`, because
Bob's status is checked before the password. -/
theorem C1_inactive_user_breaks_uniformity :
    (findUserByEmail testStore "bob@x.com" = some bob) ∧
    testEnv.bcompare "WrongPw" bob.passwordHash = false ∧
    (login testEnv testStore "bob@x.com" "WrongPw" none none).1 =
      .error (.Unauthorized "Account is inactive") ∧
    (login testEnv testStore "bob@x.com" "WrongPw" none none).1 ≠
      .error (.Unauthorized "Invalid credentials") := by
  refine ⟨by decide, by decide, by decide, by decide⟩

/-- C1 (amended): for every stored ACTIVE user presented with a wrong
password, and for every absent email with any password, login fails with
the identical message `Unauthorized("Invalid credentials")`, while the
logged reasons differ: "User not found" for the absent email and
"Invalid password" for the mismatch. -/
theorem C1_login_uniform_failure (env : Env) (st : Store)
    (email password : String) (ip ua : Option String)
    (hlog : env.secLogThrows = false) :
    (loadUserByEmail st email = none →
      (login env st email password ip ua).1 =
        .error (.Unauthorized "Invalid credentials") ∧
      (login env st email password ip ua).2.securityLogs =
        st.securityLogs ++
          [{ userId := none, event := "LOGIN_FAILED", email := some email
             ipAddress := ip, userAgent := ua, success := false
             errorMessage := some "User not found"
             metadata := some "User not found" }]) ∧
    (∀ lu, loadUserByEmail st email = some lu →
      lu.user.status = .ACTIVE →
      env.bcompare password lu.user.passwordHash = false →
      (login env st email password ip ua).1 =
        .error (.Unauthorized "Invalid credentials") ∧
      (login env st email password ip ua).2.securityLogs =
        st.securityLogs ++
          [{ userId := some lu.user.id, event := "LOGIN_FAILED"
             email := some email, ipAddress := ip, userAgent := ua
             success := false, errorMessage := some "Invalid password"
             metadata := some "Invalid password" }]) := by
  constructor
  · intro hnone
    unfold login
    rw [hnone]
    exact ⟨rfl, logSecurityEvent_of_false env st _ _ _ _ _ _ hlog⟩
  · intro lu hsome hactive hcmp
    unfold login
    rw [hsome]
    simp only [hactive, hcmp]
    simp only [ne_eq, not_true_eq_false, if_false, Bool.not_false, if_true]
    refine ⟨trivial, ?_⟩
    exact logSecurityEvent_of_false env st _ _ _ _ _ _ hlog

/-- C1 witness: Alice is a stored ACTIVE user; `WrongPw` is rejected with
the uniform message and the "Invalid password" logged reason. -/
theorem C1_login_uniform_failure_witness :
    (login testEnv testStore "alice@x.com" "WrongPw" none none).1 =
      .error (.Unauthorized "Invalid credentials") ∧
    (login testEnv testStore "alice@x.com" "WrongPw" none none).2.securityLogs =
      [{ userId := some "u1", event := "LOGIN_FAILED", email := some "alice@x.com"
         ipAddress := none, userAgent := none, success := false
         errorMessage := some "Invalid password"
         metadata := some "Invalid password" }] := by
  have h := (C1_login_uniform_failure testEnv testStore "alice@x.com" "WrongPw"
    none none rfl).2 ⟨alice, roleSub⟩ (by decide) (by decide) (by decide)
  exact ⟨h.1, by rw [h.2]; decide⟩

/-- C10: on every login failure path — user not found, inactive status,
password mismatch — the stored user rows are unmodified; on success the
only change is the matched user's lastLoginAt, so the timestamp is written
only after the password verified. -/
theorem C10_login_frame (env : Env) (st : Store) (email password : String)
    (ip ua : Option String) :
    (∀ e, (login env st email password ip ua).1 = .error e →
        (login env st email password ip ua).2.users = st.users) ∧
    (∀ lu, loadUserByEmail st email = some lu → lu.user.status = .ACTIVE →
        env.bcompare password lu.user.passwordHash = true →
        (login env st email password ip ua).2.users =
          st.users.map (fun u => if u.id == lu.user.id then
            { u with lastLoginAt := some env.now } else u)) := by
  cases hload : loadUserByEmail st email with
  | none =>
    rw [login_not_found env st email password ip ua hload]
    refine ⟨fun e _ => logSecurityEvent_users env st _ _ _ _ _ _, ?_⟩
    intro lu hsome
    exact Option.noConfusion hsome
  | some lu =>
    by_cases hst : lu.user.status = .ACTIVE
    · cases hcmp : env.bcompare password lu.user.passwordHash with
      | false =>
        rw [login_wrong_password env st email password ip ua lu hload hst hcmp]
        refine ⟨fun e _ => logSecurityEvent_users env st _ _ _ _ _ _, ?_⟩
        intro lu' hsome' _ hcmp'
        injection hsome' with hlu
        subst hlu
        rw [hcmp] at hcmp'
        cases hcmp'
      | true =>
        rw [login_success env st email password ip ua lu hload hst hcmp]
        constructor
        · intro e he
          exact Except.noConfusion he
        · intro lu' hsome' _ _
          injection hsome' with hlu
          subst hlu
          rw [logSecurityEvent_users]
          rfl
    · rw [login_inactive env st email password ip ua lu hload hst]
      refine ⟨fun e _ => logSecurityEvent_users env st _ _ _ _ _ _, ?_⟩
      intro lu' hsome' hst' _
      injection hsome' with hlu
      subst hlu
      exact absurd hst' hst

/-- C10 witness: Alice with a wrong password leaves the user rows
untouched; Alice with the right password changes only her lastLoginAt. -/
theorem C10_login_frame_witness :
    (login testEnv testStore "alice@x.com" "WrongPw" none none).2.users =
      testStore.users ∧
    (login testEnv testStore "alice@x.com" "Secret1" none none).2.users =
      testStore.users.map (fun u => if u.id == "u1" then
        { u with lastLoginAt := some 1000000 } else u) := by
  refine ⟨(C10_login_frame testEnv testStore "alice@x.com" "WrongPw" none none).1
    (.Unauthorized "Invalid credentials") (by decide), ?_⟩
  exact (C10_login_frame testEnv testStore "alice@x.com" "Secret1" none none).2
    ⟨alice, roleSub⟩ (by decide) rfl (by decide)

lemma resetMatches_token {env : Env} {token : String} {u : UserRec}
    (h : resetMatches env token u = true) : u.passwordResetToken = some token := by
  unfold resetMatches at h
  rw [Bool.and_eq_true] at h
  have h1 := h.1
  cases hres : u.passwordResetToken with
  | none => rw [hres] at h1; cases h1
  | some s =>
    rw [hres] at h1
    have hs : s = token := by
      have := (beq_iff_eq (a := some s) (b := some token)).1 h1
      injection this
    rw [hs]

lemma resetPassword_of_none (env : Env) (st : Store) (token newPwd : String)
    (h : st.users.find? (resetMatches env token) = none) :
    resetPassword env st token newPwd =
      (.error (.BadRequest "Invalid or expired reset token"), st) := by
  simp only [resetPassword, h]

lemma resetPassword_of_some (env : Env) (st : Store) (token newPwd : String)
    (u : UserRec) (h : st.users.find? (resetMatches env token) = some u) :
    resetPassword env st token newPwd =
      (.ok "Password reset successful",
       logSecurityEvent env
         (updateUser st u.id (fun v =>
           { v with passwordHash := env.bhash newPwd env.cfg.bcryptRounds
                    passwordResetToken := none
                    passwordResetExpires := none }))
         "PASSWORD_RESET_SUCCESS" (some u.id) (some u.email) none none none) := by
  simp only [resetPassword, h]

/-- C2: `resetPassword(token, newPwd)` succeeds iff some stored user holds
exactly that token with a strictly future expiry, failing with
`BadRequest("Invalid or expired reset token")` and an untouched store
otherwise; on success one update persists the new hash and clears both
reset fields, and — under the invariant that at most one user holds a
given token — any second call with the same token is rejected. -/
theorem C2_resetPassword_consumable_once (env : Env) (st : Store)
    (token newPwd : String)
    (hone : ∀ v ∈ st.users, v.passwordResetToken = some token →
              ∀ w ∈ st.users, w.passwordResetToken = some token → v = w) :
    ((∀ u ∈ st.users, resetMatches env token u = false) →
       resetPassword env st token newPwd =
         (.error (.BadRequest "Invalid or expired reset token"), st)) ∧
    (∀ u, u ∈ st.users → resetMatches env token u = true →
       (resetPassword env st token newPwd).1 = .ok "Password reset successful" ∧
       (resetPassword env st token newPwd).2.users =
         st.users.map (fun v => if v.id == u.id then
           { v with passwordHash := env.bhash newPwd env.cfg.bcryptRounds
                    passwordResetToken := none
                    passwordResetExpires := none } else v) ∧
       (∀ env' newPwd',
         (resetPassword env' (resetPassword env st token newPwd).2 token newPwd').1 =
           .error (.BadRequest "Invalid or expired reset token"))) := by
  constructor
  · intro hall
    have hfind : st.users.find? (resetMatches env token) = none :=
      List.find?_eq_none.2 (fun u hu => by rw [hall u hu]; exact Bool.false_ne_true)
    exact resetPassword_of_none env st token newPwd hfind
  · intro u hu hmatch
    have hfind : st.users.find? (resetMatches env token) = some u := by
      refine find?_eq_of_unique _ _ u hu hmatch (fun v hv hpv => ?_)
      exact hone v hv (resetMatches_token hpv) u hu (resetMatches_token hmatch)
    have hrun := resetPassword_of_some env st token newPwd u hfind
    have husers : (resetPassword env st token newPwd).2.users =
        st.users.map (fun v => if v.id == u.id then
          { v with passwordHash := env.bhash newPwd env.cfg.bcryptRounds
                   passwordResetToken := none
                   passwordResetExpires := none } else v) := by
      rw [hrun]
      rw [logSecurityEvent_users]
      rfl
    refine ⟨by rw [hrun], husers, ?_⟩
    intro env' newPwd'
    have hnone : ((resetPassword env st token newPwd).2.users).find?
        (resetMatches env' token) = none := by
      rw [husers]
      refine List.find?_eq_none.2 (fun w hw => ?_)
      rcases List.mem_map.1 hw with ⟨v, hv, hweq⟩
      subst hweq
      by_cases hid : (v.id == u.id) = true
      · simp only [hid, if_true]
        intro hcontra
        have hres := resetMatches_token hcontra
        cases hres
      · simp only [hid]
        intro hcontra
        rw [if_neg (by simp [hid])] at hcontra
        have hvtok := resetMatches_token hcontra
        have hvu : v = u := hone v hv hvtok u hu (resetMatches_token hmatch)
        subst hvu
        simp at hid
    rw [resetPassword_of_none env' _ token newPwd' hnone]

/-- C2 witness: Carol holds the unexpired token "tok-1"; resetting with it
succeeds and a second use of the same token is rejected. -/
theorem C2_resetPassword_consumable_once_witness :
    (resetPassword testEnv testStore "tok-1" "NewPwd").1 =
      .ok "Password reset successful" ∧
    (resetPassword testEnv
        (resetPassword testEnv testStore "tok-1" "NewPwd").2 "tok-1" "Again").1 =
      .error (.BadRequest "Invalid or expired reset token") := by
  have h := (C2_resetPassword_consumable_once testEnv testStore "tok-1" "NewPwd"
    (by decide)).2 carol (by decide) (by decide)
  exact ⟨h.1, h.2.2 testEnv "Again"⟩

/-- Alice after an administrative role change to the Admin role. -/
def aliceAdmin : UserRec := { alice with roleId := "r2" }

/-- The store after Alice's role changed, post-issuance. -/
def storeRoleChanged : Store := ⟨[aliceAdmin, bob, carol], [roleSub, roleAdmin], [], []⟩

/-- A refresh token issued for Alice, still within its validity window. -/
def aliceRefresh : SignedRefreshToken := ⟨⟨"u1", "refresh"⟩, "ref-secret", 2000000⟩

/-- C3: with a validly signed, unexpired refresh token, `refreshToken`
re-reads the user by the token's subject id: a missing or non-ACTIVE user
yields `Unauthorized("Invalid refresh token")`; otherwise a fresh pair is
issued whose access claims carry the user's current role name and current
permission keys as loaded from the store, not the claims at issuance. -/
theorem C3_refresh_uses_fresh_user (env : Env) (st : Store)
    (tok : SignedRefreshToken)
    (hsig : tok.secret = env.cfg.jwtRefreshSecret) (hexp : env.now < tok.exp) :
    (loadUserById st tok.payload.sub = none →
       refreshToken env st tok =
         (.error (.Unauthorized "Invalid refresh token"), st)) ∧
    (∀ lu, loadUserById st tok.payload.sub = some lu →
       (lu.user.status ≠ .ACTIVE →
          refreshToken env st tok =
            (.error (.Unauthorized "Invalid refresh token"), st)) ∧
       (lu.user.status = .ACTIVE →
          refreshToken env st tok = (.ok (generateTokenPair env lu), st) ∧
          (generateTokenPair env lu).accessToken.payload.role = lu.role.name ∧
          (generateTokenPair env lu).accessToken.payload.permissions =
            lu.role.rolePermissions.map (fun rp => rp.permission.key))) := by
  have hverify : verifyRefresh env tok = some tok.payload := by
    simp [verifyRefresh, hsig, hexp]
  constructor
  · intro hnone
    simp only [refreshToken, hverify, hnone]
  · intro lu hsome
    constructor
    · intro hst
      simp only [refreshToken, hverify, hsome]
      rw [if_pos hst]
    · intro hst
      refine ⟨?_, rfl, rfl⟩
      simp only [refreshToken, hverify, hsome]
      rw [if_neg (not_not_intro hst)]

/-- C3 witness: a refresh token issued for Alice, presented after her role
changed from Subordinate to Admin, yields an access token carrying the
Admin role and the Admin permission keys (duplicate included). -/
theorem C3_refresh_uses_fresh_user_witness :
    (refreshToken testEnv storeRoleChanged aliceRefresh).1 =
      .ok (generateTokenPair testEnv ⟨aliceAdmin, roleAdmin⟩) ∧
    (generateTokenPair testEnv ⟨aliceAdmin, roleAdmin⟩).accessToken.payload.role =
      "Admin" ∧
    (generateTokenPair testEnv ⟨aliceAdmin, roleAdmin⟩).accessToken.payload.permissions =
      ["products:read", "products:write", "products:read"] := by
  have h := ((C3_refresh_uses_fresh_user testEnv storeRoleChanged aliceRefresh
    rfl (by decide)).2 ⟨aliceAdmin, roleAdmin⟩ (by decide)).2 rfl
  exact ⟨by rw [h.1], by decide, by decide⟩

/-- C5: issued access-token claims are exactly the subject id, email, role
name and the role's permission keys in join order (length-preserving map,
so duplicates are kept), signed with the access secret and the configured
access TTL (default "15m"); refresh-token claims are exactly the subject
id and type "refresh", signed with the refresh secret and the configured
refresh TTL (default "7d"), and the two secrets are distinct configuration
fields. -/
theorem C5_token_issuance (env : Env) (lu : LoadedUser) (ev : EnvVars)
    (cfg : Config) (hcfg : mkConfig ev = .ok cfg) :
    (generateTokenPair env lu).accessToken.payload =
      { sub := lu.user.id, email := lu.user.email, role := lu.role.name
        permissions := lu.role.rolePermissions.map (fun rp => rp.permission.key) } ∧
    (generateTokenPair env lu).accessToken.payload.permissions.length =
      lu.role.rolePermissions.length ∧
    (generateTokenPair env lu).accessToken.secret = env.cfg.jwtSecret ∧
    (generateTokenPair env lu).accessToken.expiresIn = env.cfg.jwtExpiresIn ∧
    (generateTokenPair env lu).refreshToken.payload =
      { sub := lu.user.id, type := "refresh" } ∧
    (generateTokenPair env lu).refreshToken.secret = env.cfg.jwtRefreshSecret ∧
    (generateTokenPair env lu).refreshToken.exp =
      env.now + ttlToMs env.cfg.jwtRefreshExpiresIn ∧
    (ev.JWT_EXPIRES_IN = none → cfg.jwtExpiresIn = "15m") ∧
    (ev.JWT_REFRESH_EXPIRES_IN = none → cfg.jwtRefreshExpiresIn = "7d") ∧
    (env.cfg.jwtSecret ≠ env.cfg.jwtRefreshSecret →
      (generateTokenPair env lu).accessToken.secret ≠
        (generateTokenPair env lu).refreshToken.secret) := by
  have hdef : cfg.jwtExpiresIn = ev.JWT_EXPIRES_IN.getD "15m" ∧
      cfg.jwtRefreshExpiresIn = ev.JWT_REFRESH_EXPIRES_IN.getD "7d" := by
    unfold mkConfig at hcfg
    by_cases hf : (falsyStr ev.JWT_SECRET || falsyStr ev.JWT_REFRESH_SECRET) = true
    · rw [if_pos hf] at hcfg
      exact Except.noConfusion hcfg
    · rw [if_neg hf] at hcfg
      injection hcfg with h
      rw [← h]
      exact ⟨rfl, rfl⟩
  refine ⟨rfl, ?_, rfl, rfl, rfl, rfl, rfl, ?_, ?_, fun h => h⟩
  · simp [generateTokenPair, List.length_map]
  · intro hn
    rw [hdef.1, hn]
    rfl
  · intro hn
    rw [hdef.2, hn]
    rfl

/-- C5 witness: concrete claims for Alice with the Subordinate role, under
a configuration built with the TTL variables unset. -/
theorem C5_token_issuance_witness :
    (generateTokenPair testEnv ⟨alice, roleSub⟩).accessToken.payload =
      { sub := "u1", email := "alice@x.com", role := "Subordinate"
        permissions := ["products:read"] } ∧
    (generateTokenPair testEnv ⟨alice, roleSub⟩).refreshToken.payload =
      { sub := "u1", type := "refresh" } ∧
    testConfig.jwtExpiresIn = "15m" ∧
    testConfig.jwtRefreshExpiresIn = "7d" := by
  have h := C5_token_issuance testEnv ⟨alice, roleSub⟩ testEnvVars testConfig
    (by decide)
  exact ⟨by rw [h.1]; decide, by rw [h.2.2.2.2.1]; decide,
    h.2.2.2.2.2.2.2.1 rfl, h.2.2.2.2.2.2.2.2.1 rfl⟩

lemma forgotPassword_of_none (env : Env) (st : Store) (email : String)
    (h : findUserByEmail st email = none) :
    forgotPassword env st email =
      (.ok "If the email exists, a reset link has been sent", st) := by
  simp only [forgotPassword, h]

lemma forgotPassword_of_some (env : Env) (st : Store) (email : String)
    (u : UserRec) (h : findUserByEmail st email = some u) :
    forgotPassword env st email =
      (.ok "If the email exists, a reset link has been sent",
       logSecurityEvent env
         (updateUser st u.id (fun v =>
           { v with passwordResetToken := some env.uuid
                    passwordResetExpires := some (env.now + 15 * 60 * 1000) }))
         "PASSWORD_RESET_REQUEST" (some u.id) (some email) none none none) := by
  simp only [forgotPassword, h]

/-- C6: `forgotPassword` returns the one uniform message for every input;
when no user holds the email the store is untouched; when one does, the
only user-row change sets that user's reset token to the freshly generated
uuid and the expiry to exactly now plus fifteen minutes, and a
`PASSWORD_RESET_REQUEST` event is appended. -/
theorem C6_forgotPassword_uniform (env : Env) (st : Store) (email : String)
    (hlog : env.secLogThrows = false) :
    ((forgotPassword env st email).1 =
       .ok "If the email exists, a reset link has been sent") ∧
    (findUserByEmail st email = none → (forgotPassword env st email).2 = st) ∧
    (∀ u, findUserByEmail st email = some u →
       (forgotPassword env st email).2.users =
         st.users.map (fun v => if v.id == u.id then
           { v with passwordResetToken := some env.uuid
                    passwordResetExpires := some (env.now + 15 * 60 * 1000) } else v) ∧
       (forgotPassword env st email).2.securityLogs =
         st.securityLogs ++
           [{ userId := some u.id, event := "PASSWORD_RESET_REQUEST"
              email := some email, ipAddress := none, userAgent := none
              success := true, errorMessage := none, metadata := none }]) := by
  cases hfind : findUserByEmail st email with
  | none =>
    rw [forgotPassword_of_none env st email hfind]
    exact ⟨rfl, fun _ => rfl, fun u hsome => Option.noConfusion hsome⟩
  | some u₀ =>
    rw [forgotPassword_of_some env st email u₀ hfind]
    refine ⟨rfl, fun h => Option.noConfusion h, ?_⟩
    intro u hsome
    injection hsome with hu
    subst hu
    constructor
    · rw [logSecurityEvent_users]
      rfl
    · rw [logSecurityEvent_of_false _ _ _ _ _ _ _ _ hlog]
      rfl

/-- C6 witness: the uniform message for an existing and for an absent
email, the untouched store for the absent one, and Alice's row gaining the
fresh token with expiry 1000000 + 900000. -/
theorem C6_forgotPassword_uniform_witness :
    (forgotPassword testEnv testStore "alice@x.com").1 =
      .ok "If the email exists, a reset link has been sent" ∧
    (forgotPassword testEnv testStore "nobody@x.com").2 = testStore ∧
    (forgotPassword testEnv testStore "alice@x.com").2.users =
      testStore.users.map (fun v => if v.id == "u1" then
        { v with passwordResetToken := some "uuid-1"
                 passwordResetExpires := some 1900000 } else v) := by
  have h1 := C6_forgotPassword_uniform testEnv testStore "alice@x.com" rfl
  have h2 := C6_forgotPassword_uniform testEnv testStore "nobody@x.com" rfl
  refine ⟨h1.1, h2.2.1 (by decide), ?_⟩
  rw [(h1.2.2 alice (by decide)).1]
  decide

lemma validateUser_eq_some (env : Env) (st : Store) (email password : String)
    (lu : LoadedUser) (h : loadUserByEmail st email = some lu)
    (hst : lu.user.status = .ACTIVE)
    (hcmp : env.bcompare password lu.user.passwordHash = true) :
    validateUser env st email password =
      some { id := lu.user.id, email := lu.user.email, name := lu.user.name
             status := lu.user.status, roleId := lu.user.roleId
             lastLoginAt := lu.user.lastLoginAt
             passwordResetToken := lu.user.passwordResetToken
             passwordResetExpires := lu.user.passwordResetExpires
             role := lu.role } := by
  simp only [validateUser, h, hst, hcmp]
  simp

/-- Carol's `validateUser` result: password hash removed, reset-token
fields retained. -/
def carolValidated : ValidatedUser :=
  ⟨"u3", "carol@x.com", "Carol", .ACTIVE, "r1", none,
   some "tok-1", some 2000000, roleSub⟩

/-- C7 counterexample: `validateUser` with Carol's valid credentials
returns an object that still carries her stored reset token and reset
expiry, contradicting the claim that it contains none of the secret
fields. -/
theorem C7_validateUser_keeps_reset_fields :
    (validateUser testEnv testStore "carol@x.com" "Secret1").map
        (fun v => v.passwordResetToken) = some (some "tok-1") ∧
    (validateUser testEnv testStore "carol@x.com" "Secret1").map
        (fun v => v.passwordResetExpires) = some (some 2000000) := by
  exact ⟨by decide, by decide⟩

/-- C7 (amended): register and login responses are shaped by
`formatUserResponse`, which removes the password hash and both reset-token
fields and attaches the flat permission-key list; `validateUser`, by
contrast, returns null or the loaded user minus only the password hash, so
its result retains the stored reset-token pair. -/
theorem C7_response_shaping (env : Env) (st : Store) (email password : String)
    (ip ua : Option String) :
    (∀ lu : LoadedUser, formatUserResponse lu =
       { id := lu.user.id, email := lu.user.email, name := lu.user.name
         status := lu.user.status, roleId := lu.user.roleId
         lastLoginAt := lu.user.lastLoginAt, role := lu.role
         permissions := lu.role.rolePermissions.map (fun rp => rp.permission.key) }) ∧
    (∀ resp st', login env st email password ip ua = (.ok resp, st') →
       ∀ lu, loadUserByEmail st email = some lu →
         resp.user = formatUserResponse lu) ∧
    (∀ v, validateUser env st email password = some v →
       ∀ lu, loadUserByEmail st email = some lu →
         v.passwordResetToken = lu.user.passwordResetToken ∧
         v.passwordResetExpires = lu.user.passwordResetExpires) := by
  refine ⟨fun lu => rfl, ?_, ?_⟩
  · intro resp st' h lu hlu
    cases hload : loadUserByEmail st email with
    | none =>
      rw [hload] at hlu
      exact Option.noConfusion hlu
    | some lu₀ =>
      rw [hload] at hlu
      injection hlu with hlu'
      subst hlu'
      by_cases hst : lu₀.user.status = .ACTIVE
      · cases hcmp : env.bcompare password lu₀.user.passwordHash with
        | false =>
          rw [login_wrong_password env st email password ip ua lu₀ hload hst hcmp] at h
          injection h with h1 _
          exact Except.noConfusion h1
        | true =>
          rw [login_success env st email password ip ua lu₀ hload hst hcmp] at h
          injection h with h1 _
          injection h1 with h2
          rw [← h2]
      · rw [login_inactive env st email password ip ua lu₀ hload hst] at h
        injection h with h1 _
        exact Except.noConfusion h1
  · intro v h lu hlu
    cases hload : loadUserByEmail st email with
    | none =>
      rw [hload] at hlu
      exact Option.noConfusion hlu
    | some lu₀ =>
      rw [hload] at hlu
      injection hlu with hlu'
      subst hlu'
      by_cases hst : lu₀.user.status = .ACTIVE
      · cases hcmp : env.bcompare password lu₀.user.passwordHash with
        | false =>
          simp only [validateUser, hload] at h
          rw [if_pos hst, hcmp] at h
          simp at h
        | true =>
          rw [validateUser_eq_some env st email password lu₀ hload hst hcmp] at h
          injection h with hv
          rw [← hv]
          exact ⟨rfl, rfl⟩
      · simp only [validateUser, hload] at h
        rw [if_neg hst] at h
        exact Option.noConfusion h

/-- C7 witness: Carol's shaped response versus her `validateUser` result,
which keeps the stored reset token. -/
theorem C7_response_shaping_witness :
    formatUserResponse ⟨carol, roleSub⟩ =
      { id := "u3", email := "carol@x.com", name := "Carol"
        status := .ACTIVE, roleId := "r1", lastLoginAt := none
        role := roleSub, permissions := ["products:read"] } ∧
    carolValidated.passwordResetToken = carol.passwordResetToken := by
  have h := C7_response_shaping testEnv testStore "carol@x.com" "Secret1" none none
  refine ⟨by rw [h.1 ⟨carol, roleSub⟩]; decide, ?_⟩
  exact (h.2.2 carolValidated (by decide) ⟨carol, roleSub⟩ (by decide)).1

/-- C8 counterexample: with both JWT secrets configured, startup
(`mkConfig`) succeeds even though no default role exists, and the
Error("Default role not found") is instead raised by the register call
itself — a per-call error, not a startup-time one. -/
theorem C8_default_role_error_is_per_call :
    mkConfig testEnvVars = .ok testConfig ∧
    (register testEnv storeNoDefault [] "eve@x.com" "Pwd1" "Eve"
        none none none).1 =
      .error (.Fatal "Default role not found") := by
  exact ⟨by decide, by decide⟩

/-- C8 (amended): startup validates only the JWT secrets; the default role
(named "Subordinate") is resolved inside each register call that omits
roleId, and its absence fails that registration call with
Error("Default role not found"), persisting no user. -/
theorem C8_default_role_resolution (env : Env) (st : Store)
    (email password name : String) (ip ua : Option String) (ev : EnvVars) :
    (∀ r, st.roles.find? (fun r' => r'.name == "Subordinate") = some r →
       resolveRoleId st none = .ok r.id) ∧
    (st.roles.find? (fun r' => r'.name == "Subordinate") = none →
       findUserByEmail st email = none →
       (register env st [] email password name none ip ua).1 =
         .error (.Fatal "Default role not found") ∧
       (register env st [] email password name none ip ua).2.users = st.users) ∧
    (falsyStr ev.JWT_SECRET = false → falsyStr ev.JWT_REFRESH_SECRET = false →
       ∃ cfg, mkConfig ev = .ok cfg) := by
  refine ⟨?_, ?_, ?_⟩
  · intro r hr
    simp only [resolveRoleId, getDefaultRoleId, hr]
  · intro hrole hfind
    have hres : resolveRoleId st none = .error (.Fatal "Default role not found") := by
      simp only [resolveRoleId, getDefaultRoleId, hrole]
    have hbody : registerBody env st [] email password name none ip ua =
        .error (.Fatal "Default role not found", st) := by
      simp only [registerBody, hfind, hres]
    constructor
    · simp only [register, hbody]
    · simp only [register, hbody]
      exact logSecurityEvent_users env st _ _ _ _ _ _
  · intro h1 h2
    refine ⟨{ jwtSecret := ev.JWT_SECRET.getD ""
              jwtRefreshSecret := ev.JWT_REFRESH_SECRET.getD ""
              jwtExpiresIn := ev.JWT_EXPIRES_IN.getD "15m"
              jwtRefreshExpiresIn := ev.JWT_REFRESH_EXPIRES_IN.getD "7d"
              bcryptRounds := ev.BCRYPT_ROUNDS.getD 12 }, ?_⟩
    unfold mkConfig
    rw [h1, h2]
    rfl

/-- C8 witness: the default role resolves to "r1" in the full store, and
the failing register call on the store without a default role persists
nothing. -/
theorem C8_default_role_resolution_witness :
    resolveRoleId testStore none = .ok "r1" ∧
    (register testEnv storeNoDefault [] "eve2@x.com" "Pwd1" "Eve"
        none none none).2.users = [] := by
  have h := C8_default_role_resolution testEnv storeNoDefault "eve2@x.com"
    "Pwd1" "Eve" none none testEnvVars
  have h2 := C8_default_role_resolution testEnv testStore "eve2@x.com"
    "Pwd1" "Eve" none none testEnvVars
  exact ⟨h2.1 roleSub (by decide), (h.2.1 (by decide) (by decide)).2⟩

/-- C4 counterexample: a uniqueness violation surfaced by the store at
create time (a raced duplicate committed between the pre-check and the
create) is rethrown by register as the raw Prisma unique-constraint
error, not converted to the Conflict error. -/
theorem C4_raced_duplicate_not_conflict :
    (register testEnv testStore [daveRaced] "dave@x.com" "Pwd1" "Dave"
        (some "r1") none none).1 =
      .error (.PrismaUnique "Unique constraint failed on the fields: (email)") ∧
    (register testEnv testStore [daveRaced] "dave@x.com" "Pwd1" "Dave"
        (some "r1") none none).1 ≠
      .error (.Conflict "User with this email already exists") := by
  exact ⟨by decide, by decide⟩

/-- C4 (amended): an email already stored at the pre-check always fails
with Conflict and persists no user; a uniqueness violation surfaced by the
store at create (raced duplicate) is logged as REGISTER_FAILED and
rethrown as the raw unique-constraint store error — not converted to
Conflict by the core — and likewise persists no user. -/
theorem C4_register_duplicate (env : Env) (st : Store) (raced : List UserRec)
    (email password name : String) (roleId : Option String)
    (ip ua : Option String) :
    (∀ u, findUserByEmail st email = some u →
       (register env st raced email password name roleId ip ua).1 =
         .error (.Conflict "User with this email already exists") ∧
       (register env st raced email password name roleId ip ua).2.users =
         st.users) ∧
    (findUserByEmail st email = none →
     raced.any (fun v => v.email == email) = true →
     ∀ rid, resolveRoleId st roleId = .ok rid →
       (register env st raced email password name roleId ip ua).1 =
         .error (.PrismaUnique "Unique constraint failed on the fields: (email)") ∧
       (register env st raced email password name roleId ip ua).2.users =
         st.users) := by
  constructor
  · intro u hfind
    have hbody : registerBody env st raced email password name roleId ip ua =
        .error (.Conflict "User with this email already exists", st) := by
      simp only [registerBody, hfind]
    constructor
    · simp only [register, hbody]
    · simp only [register, hbody]
      exact logSecurityEvent_users env st _ _ _ _ _ _
  · intro hfind hany rid hrid
    have hall : st.users.any (fun v => v.email == email) = false := by
      rw [List.any_eq_false]
      intro x hx
      have hne := List.find?_eq_none.1 hfind x hx
      simpa using hne
    have hcond : ((st.users ++ raced).any (fun v => v.email == email)) = true := by
      rw [List.any_append, hall, hany]
      rfl
    have hcreate : createUser st raced
        { id := env.newId, email := email, name := name
          passwordHash := env.bhash password env.cfg.bcryptRounds
          status := .ACTIVE, roleId := rid, lastLoginAt := none
          passwordResetToken := none, passwordResetExpires := none } =
        .error (.PrismaUnique "Unique constraint failed on the fields: (email)") := by
      unfold createUser
      rw [if_pos hcond]
    have hbody : registerBody env st raced email password name roleId ip ua =
        .error (.PrismaUnique "Unique constraint failed on the fields: (email)", st) := by
      simp only [registerBody, hfind, hrid, hcreate]
    constructor
    · simp only [register, hbody]
    · simp only [register, hbody]
      exact logSecurityEvent_users env st _ _ _ _ _ _

/-- C4 witness: a pre-existing email yields Conflict with no new row; the
raced duplicate path likewise persists nothing. -/
theorem C4_register_duplicate_witness :
    (register testEnv testStore [] "alice@x.com" "Pwd1" "Alice2"
        none none none).1 =
      .error (.Conflict "User with this email already exists") ∧
    (register testEnv testStore [] "alice@x.com" "Pwd1" "Alice2"
        none none none).2.users = testStore.users ∧
    (register testEnv testStore [daveRaced] "dave@x.com" "Pwd1" "Dave"
        (some "r1") none none).2.users = testStore.users := by
  have h := C4_register_duplicate testEnv testStore [] "alice@x.com" "Pwd1"
    "Alice2" none none none
  have h2 := C4_register_duplicate testEnv testStore [daveRaced] "dave@x.com"
    "Pwd1" "Dave" (some "r1") none none
  exact ⟨(h.1 alice (by decide)).1, (h.1 alice (by decide)).2,
    (h2.2 (by decide) (by decide) "r1" (by decide)).2⟩

/-- The environment with the security-log failure flag set to `b`. -/
def setSecFail (env : Env) (b : Bool) : Env := { env with secLogThrows := b }

lemma setSecFail_cfg (env : Env) (b : Bool) : (setSecFail env b).cfg = env.cfg := rfl

lemma setSecFail_bhash (env : Env) (b : Bool) :
    (setSecFail env b).bhash = env.bhash := rfl

lemma setSecFail_bcompare (env : Env) (b : Bool) :
    (setSecFail env b).bcompare = env.bcompare := rfl

lemma setSecFail_now (env : Env) (b : Bool) : (setSecFail env b).now = env.now := rfl

lemma setSecFail_uuid (env : Env) (b : Bool) : (setSecFail env b).uuid = env.uuid := rfl

lemma setSecFail_newId (env : Env) (b : Bool) :
    (setSecFail env b).newId = env.newId := rfl

lemma setSecFail_audit (env : Env) (b : Bool) :
    (setSecFail env b).auditThrows = env.auditThrows := rfl

lemma auditLog_of_throws (env : Env) (st : Store) (e : AuditEntry)
    (h : env.auditThrows = true) :
    auditLog env st e = .error (.AuditFailure "Audit log write failed") := by
  unfold auditLog
  rw [if_pos h]

lemma auditLog_of_ok (env : Env) (st : Store) (e : AuditEntry)
    (h : env.auditThrows = false) :
    auditLog env st e = .ok { st with auditLogs := st.auditLogs ++ [e] } := by
  unfold auditLog
  rw [if_neg (by rw [h]; exact Bool.false_ne_true)]

lemma login_seclog_indep (env : Env) (b b' : Bool) (st : Store)
    (email password : String) (ip ua : Option String) :
    (login (setSecFail env b) st email password ip ua).1 =
      (login (setSecFail env b') st email password ip ua).1 ∧
    (login (setSecFail env b) st email password ip ua).2.users =
      (login (setSecFail env b') st email password ip ua).2.users := by
  cases hload : loadUserByEmail st email with
  | none =>
    rw [login_not_found (setSecFail env b) st email password ip ua hload,
        login_not_found (setSecFail env b') st email password ip ua hload]
    exact ⟨rfl, by simp only [logSecurityEvent_users]⟩
  | some lu =>
    by_cases hst : lu.user.status = .ACTIVE
    · cases hcmp : env.bcompare password lu.user.passwordHash with
      | false =>
        rw [login_wrong_password (setSecFail env b) st email password ip ua lu hload hst hcmp,
            login_wrong_password (setSecFail env b') st email password ip ua lu hload hst hcmp]
        exact ⟨rfl, by simp only [logSecurityEvent_users]⟩
      | true =>
        rw [login_success (setSecFail env b) st email password ip ua lu hload hst hcmp,
            login_success (setSecFail env b') st email password ip ua lu hload hst hcmp]
        refine ⟨?_, ?_⟩
        · simp only [generateTokenPair, setSecFail_cfg, setSecFail_now]
        · simp only [logSecurityEvent_users, setSecFail_now]
    · rw [login_inactive (setSecFail env b) st email password ip ua lu hload hst,
          login_inactive (setSecFail env b') st email password ip ua lu hload hst]
      exact ⟨rfl, by simp only [logSecurityEvent_users]⟩

lemma refreshToken_seclog_indep (env : Env) (b b' : Bool) (st : Store)
    (tok : SignedRefreshToken) :
    (refreshToken (setSecFail env b) st tok).1 =
      (refreshToken (setSecFail env b') st tok).1 ∧
    (refreshToken (setSecFail env b) st tok).2.users =
      (refreshToken (setSecFail env b') st tok).2.users := by
  refine ⟨?_, ?_⟩ <;>
    simp only [refreshToken, verifyRefresh, generateTokenPair,
      setSecFail_cfg, setSecFail_now]

lemma logout_seclog_indep (env : Env) (b b' : Bool) (st : Store)
    (userId : String) (ip ua : Option String) :
    (logout (setSecFail env b) st userId ip ua).1 =
      (logout (setSecFail env b') st userId ip ua).1 ∧
    (logout (setSecFail env b) st userId ip ua).2.users =
      (logout (setSecFail env b') st userId ip ua).2.users := by
  cases hfind : findUserById st userId with
  | some u =>
    refine ⟨?_, ?_⟩ <;> simp only [logout, hfind, logSecurityEvent_users]
  | none =>
    refine ⟨?_, ?_⟩ <;> simp only [logout, hfind]

lemma changePassword_seclog_indep (env : Env) (b b' : Bool) (st : Store)
    (userId current newPwd : String) :
    (changePassword (setSecFail env b) st userId current newPwd).1 =
      (changePassword (setSecFail env b') st userId current newPwd).1 ∧
    (changePassword (setSecFail env b) st userId current newPwd).2.users =
      (changePassword (setSecFail env b') st userId current newPwd).2.users := by
  cases hfind : findUserById st userId with
  | none =>
    refine ⟨?_, ?_⟩ <;> simp only [changePassword, hfind]
  | some u =>
    cases hcmp : env.bcompare current u.passwordHash with
    | false =>
      refine ⟨?_, ?_⟩ <;>
        simp [changePassword, hfind, setSecFail_bcompare, hcmp,
          logSecurityEvent_users]
    | true =>
      refine ⟨?_, ?_⟩ <;>
        simp [changePassword, hfind, setSecFail_bcompare, hcmp,
          logSecurityEvent_users, setSecFail_bhash, setSecFail_cfg]

lemma forgotPassword_seclog_indep (env : Env) (b b' : Bool) (st : Store)
    (email : String) :
    (forgotPassword (setSecFail env b) st email).1 =
      (forgotPassword (setSecFail env b') st email).1 ∧
    (forgotPassword (setSecFail env b) st email).2.users =
      (forgotPassword (setSecFail env b') st email).2.users := by
  cases hfind : findUserByEmail st email with
  | none =>
    rw [forgotPassword_of_none (setSecFail env b) st email hfind,
        forgotPassword_of_none (setSecFail env b') st email hfind]
    exact ⟨rfl, rfl⟩
  | some u =>
    rw [forgotPassword_of_some (setSecFail env b) st email u hfind,
        forgotPassword_of_some (setSecFail env b') st email u hfind]
    refine ⟨rfl, ?_⟩
    simp only [logSecurityEvent_users, setSecFail_uuid, setSecFail_now]

lemma resetPassword_seclog_indep (env : Env) (b b' : Bool) (st : Store)
    (token newPwd : String) :
    (resetPassword (setSecFail env b) st token newPwd).1 =
      (resetPassword (setSecFail env b') st token newPwd).1 ∧
    (resetPassword (setSecFail env b) st token newPwd).2.users =
      (resetPassword (setSecFail env b') st token newPwd).2.users := by
  have hm : ∀ c, resetMatches (setSecFail env c) = resetMatches env := fun c => rfl
  cases hfind : st.users.find? (resetMatches env token) with
  | none =>
    rw [resetPassword_of_none (setSecFail env b) st token newPwd
          (by rw [hm]; exact hfind),
        resetPassword_of_none (setSecFail env b') st token newPwd
          (by rw [hm]; exact hfind)]
    exact ⟨rfl, rfl⟩
  | some u =>
    rw [resetPassword_of_some (setSecFail env b) st token newPwd u
          (by rw [hm]; exact hfind),
        resetPassword_of_some (setSecFail env b') st token newPwd u
          (by rw [hm]; exact hfind)]
    refine ⟨rfl, ?_⟩
    simp only [logSecurityEvent_users, setSecFail_bhash, setSecFail_cfg]

lemma register_seclog_indep (env : Env) (b b' : Bool) (st : Store)
    (raced : List UserRec) (email password name : String)
    (roleId : Option String) (ip ua : Option String) :
    (register (setSecFail env b) st raced email password name roleId ip ua).1 =
      (register (setSecFail env b') st raced email password name roleId ip ua).1 ∧
    (register (setSecFail env b) st raced email password name roleId ip ua).2.users =
      (register (setSecFail env b') st raced email password name roleId ip ua).2.users := by
  cases hfind : findUserByEmail st email with
  | some u =>
    refine ⟨?_, ?_⟩ <;>
      simp only [register, registerBody, hfind, logSecurityEvent_users]
  | none =>
    cases hres : resolveRoleId st roleId with
    | error e =>
      refine ⟨?_, ?_⟩ <;>
        simp only [register, registerBody, hfind, hres, logSecurityEvent_users]
    | ok rid =>
      cases hcre : createUser st raced
          { id := env.newId, email := email, name := name
            passwordHash := env.bhash password env.cfg.bcryptRounds
            status := .ACTIVE, roleId := rid, lastLoginAt := none
            passwordResetToken := none, passwordResetExpires := none } with
      | error e =>
        refine ⟨?_, ?_⟩ <;>
          simp only [register, registerBody, hfind, hres, setSecFail_newId,
            setSecFail_bhash, setSecFail_cfg, hcre, logSecurityEvent_users]
      | ok p =>
        obtain ⟨lu, st₁⟩ := p
        cases haud : env.auditThrows with
        | true =>
          refine ⟨?_, ?_⟩ <;>
            simp only [register, registerBody, hfind, hres, setSecFail_newId,
              setSecFail_bhash, setSecFail_cfg, hcre, auditLog_of_throws,
              setSecFail_audit, haud, logSecurityEvent_users]
        | false =>
          refine ⟨?_, ?_⟩ <;>
            simp only [register, registerBody, hfind, hres, setSecFail_newId,
              setSecFail_bhash, setSecFail_cfg, hcre, auditLog_of_ok,
              setSecFail_audit, haud, logSecurityEvent_users,
              generateTokenPair, setSecFail_now, formatUserResponse]

/-- C9 counterexample: with the audit-trail write failing, a registration
that otherwise succeeds instead returns the audit error to the caller —
after the user row was already persisted — so a logging-write failure does
change a public operation's outcome. -/
theorem C9_audit_failure_changes_outcome :
    (register testEnvAudit testStore [] "dave@x.com" "Pwd1" "Dave"
        (some "r1") none none).1 =
      .error (.AuditFailure "Audit log write failed") ∧
    isOkE (register testEnv testStore [] "dave@x.com" "Pwd1" "Dave"
        (some "r1") none none).1 = true ∧
    (register testEnvAudit testStore [] "dave@x.com" "Pwd1" "Dave"
        (some "r1") none none).2.users ≠ testStore.users := by
  exact ⟨by decide, by decide, by decide⟩

/-- C9 (amended): a failure of the security-event log write is caught
inside logSecurityEvent and never changes any public operation's outcome
or the stored user rows — for register, login, refreshToken, logout,
changePassword, forgotPassword and resetPassword alike; the audit-trail
write in register, by contrast, is not contained (its failure is rethrown
after the user was persisted). -/
theorem C9_seclog_failures_contained (env : Env) (b b' : Bool) (st : Store)
    (raced : List UserRec) (email password name userId current newPwd token : String)
    (roleId : Option String) (ip ua : Option String) (tok : SignedRefreshToken) :
    ((register (setSecFail env b) st raced email password name roleId ip ua).1 =
       (register (setSecFail env b') st raced email password name roleId ip ua).1 ∧
     (register (setSecFail env b) st raced email password name roleId ip ua).2.users =
       (register (setSecFail env b') st raced email password name roleId ip ua).2.users) ∧
    ((login (setSecFail env b) st email password ip ua).1 =
       (login (setSecFail env b') st email password ip ua).1 ∧
     (login (setSecFail env b) st email password ip ua).2.users =
       (login (setSecFail env b') st email password ip ua).2.users) ∧
    ((refreshToken (setSecFail env b) st tok).1 =
       (refreshToken (setSecFail env b') st tok).1 ∧
     (refreshToken (setSecFail env b) st tok).2.users =
       (refreshToken (setSecFail env b') st tok).2.users) ∧
    ((logout (setSecFail env b) st userId ip ua).1 =
       (logout (setSecFail env b') st userId ip ua).1 ∧
     (logout (setSecFail env b) st userId ip ua).2.users =
       (logout (setSecFail env b') st userId ip ua).2.users) ∧
    ((changePassword (setSecFail env b) st userId current newPwd).1 =
       (changePassword (setSecFail env b') st userId current newPwd).1 ∧
     (changePassword (setSecFail env b) st userId current newPwd).2.users =
       (changePassword (setSecFail env b') st userId current newPwd).2.users) ∧
    ((forgotPassword (setSecFail env b) st email).1 =
       (forgotPassword (setSecFail env b') st email).1 ∧
     (forgotPassword (setSecFail env b) st email).2.users =
       (forgotPassword (setSecFail env b') st email).2.users) ∧
    ((resetPassword (setSecFail env b) st token newPwd).1 =
       (resetPassword (setSecFail env b') st token newPwd).1 ∧
     (resetPassword (setSecFail env b) st token newPwd).2.users =
       (resetPassword (setSecFail env b') st token newPwd).2.users) :=
  ⟨register_seclog_indep env b b' st raced email password name roleId ip ua,
   login_seclog_indep env b b' st email password ip ua,
   refreshToken_seclog_indep env b b' st tok,
   logout_seclog_indep env b b' st userId ip ua,
   changePassword_seclog_indep env b b' st userId current newPwd,
   forgotPassword_seclog_indep env b b' st email,
   resetPassword_seclog_indep env b b' st token newPwd⟩

end AuthCore
